import Mathlib

/-!
# Verification of the MRZ codec, heuristic field extractor and rule engine

A shallow embedding in Lean 4 of the document-verification core: the
machine-readable-zone (MRZ) validator, the OCR field extractor and the
document/eligibility check batteries, together with theorems settling the
specification's claims about them.

JavaScript string primitives used by the source (`substring`, indexing,
`replace`, `split`, `trim`, `parseInt`, template literals) are modelled by
explicit functions on `String`/`List Char` below, each documented with the
JavaScript behaviour it captures.
-/

namespace DocVerify

/-! ## JavaScript string primitives -/

/-- JS `s.substring(a, b)` (with `a ≤ b`): the characters from index `a`
(inclusive) to `b` (exclusive), indices clamped to the string length. -/
def jsSubstring (s : String) (a b : Nat) : String :=
  ⟨(s.data.drop a).take (b - a)⟩

/-- JS `s[i]`: the one-character string at index `i`, or `undefined` when out of
range — modelled as `Option Char`. -/
def jsCharAt (s : String) (i : Nat) : Option Char :=
  s.data.get? i

/-- JS `` `${x}` `` for `x` a character-indexing result: a one-character string,
or the string `"undefined"` for an out-of-range index. -/
def optCharStr : Option Char → String
  | some c => ⟨[c]⟩
  | none => "undefined"

/-- JS `s.replace(/</g, '')`: remove every `<`. -/
def stripLt (s : String) : String :=
  ⟨s.data.filter (fun c => c ≠ '<')⟩

/-- JS `s.replace(/</g, ' ')`: turn every `<` into a space. -/
def ltToSpace (s : String) : String :=
  ⟨s.data.map (fun c => if c = '<' then ' ' else c)⟩

/-- JS `s.trim()`: strip leading and trailing whitespace. -/
def jsTrim (s : String) : String :=
  ⟨((s.data.dropWhile Char.isWhitespace).reverse.dropWhile Char.isWhitespace).reverse⟩

/-- JS `s.toLowerCase()` on the ASCII text this pipeline handles. -/
def toLowerStr (s : String) : String :=
  ⟨s.data.map Char.toLower⟩

/-- JS `s.toUpperCase()` on the ASCII text this pipeline handles. -/
def toUpperStr (s : String) : String :=
  ⟨s.data.map Char.toUpper⟩

/-- JS `s.split(sep)` for a one-character separator: the (possibly empty)
segments between occurrences of `sep`; a split of the empty string is `[""]`. -/
def splitChar (sep : Char) : List Char → List (List Char)
  | [] => [[]]
  | c :: rest =>
    if c = sep then [] :: splitChar sep rest
    else
      match splitChar sep rest with
      | [] => [[c]]
      | seg :: segs => (c :: seg) :: segs

/-- JS `s.split('\n')` as strings. -/
def splitLines (s : String) : List String :=
  (splitChar '\n' s.data).map String.mk

/-- JS `s.split('<<')`: segments between leftmost, non-overlapping occurrences
of the two-character separator `<<`. -/
def splitLtLt : List Char → List (List Char)
  | [] => [[]]
  | '<' :: '<' :: rest => [] :: splitLtLt rest
  | c :: rest =>
    match splitLtLt rest with
    | [] => [[c]]
    | seg :: segs => (c :: seg) :: segs

/-- JS `parseInt(s)` on the strings this code feeds it (no sign, no leading
whitespace): the number denoted by the maximal leading digit run, or `NaN`
(modelled as `none`) when the string starts with a non-digit. -/
def jsParseIntLead (s : String) : Option Nat :=
  let ds := s.data.takeWhile Char.isDigit
  if ds.isEmpty then none
  else some (ds.foldl (fun a c => a * 10 + (c.toNat - 48)) 0)

/-- JS `parseInt(x)` where `x` is a character-indexing result: a digit character
parses to its value, any other character — and `undefined` — gives `NaN`. -/
def jsParseIntChar : Option Char → Option Nat
  | some c => if c.isDigit then some (c.toNat - 48) else none
  | none => none

/-! ## MRZValidator -/

/-- Embeds `MRZValidator.charValue`: digit characters map to their value, `A`–`Z` to
10–35, the filler `<` (and anything else) to 0. -/
def charValue (c : Char) : Nat :=
  if '0' ≤ c ∧ c ≤ '9' then c.toNat - 48
  else if 'A' ≤ c ∧ c ≤ 'Z' then c.toNat - 65 + 10
  else 0

/-- The weighted sum of `MRZValidator.calculateCheckDigit`, with the repeating
weight cycle `7,3,1` aligned to the character's position `i`. -/
def checkSum : List Char → Nat → Nat
  | [], _ => 0
  | c :: rest, i => charValue c * ([7, 3, 1].getD (i % 3) 0) + checkSum rest (i + 1)

/-- Embeds `MRZValidator.calculateCheckDigit`: weighted character sum modulo 10. -/
def calculateCheckDigit (data : String) : Nat :=
  checkSum data.data 0 % 10

/-- The character written for a computed check digit. -/
def mrzDigitChar (n : Nat) : Char :=
  Char.ofNat (48 + n % 10)

/-- The check-digit comparison of `MRZValidator`: an error is recorded when the
checksum character is not the filler `<` and `parseInt` of it differs from the
computed digit (`undefined`/non-digit characters compare as `NaN`, which is
unequal to every number). -/
def checkDigitFails (check : Option Char) (computed : Nat) : Bool :=
  check != some '<' && jsParseIntChar check != some computed

/-- Embeds `MRZValidator.parseMRZDate`: expand a 6-character `YYMMDD` field to
`YYYY-MM-DD` with the two-digit-year rule `> 50 ⇒ 19YY, else 20YY`; a field of
the wrong length gives `""`.  When the year characters are not digits the JS
arithmetic produces `NaN` and the template literal renders it as `"NaN"`. -/
def parseMRZDate (mrzDate : String) : String :=
  if mrzDate.length ≠ 6 then ""
  else
    let month := jsSubstring mrzDate 2 4
    let day := jsSubstring mrzDate 4 6
    match jsParseIntLead (jsSubstring mrzDate 0 2) with
    | none => "NaN" ++ "-" ++ month ++ "-" ++ day
    | some year =>
      let fullYear := if year > 50 then 1900 + year else 2000 + year
      toString fullYear ++ "-" ++ month ++ "-" ++ day

/-- The loosely-typed `parsedData` object built by `MRZValidator`.  Fields the
JS code never assigns are `undefined` there; since this code base only ever
reads them through truthiness tests (`parsedMRZ?.x || fallback`), `undefined`
is modelled as the (equally falsy) empty string. -/
structure MRZParsedData where
  documentType : String := ""
  issuingCountry : String := ""
  surname : String := ""
  givenNames : String := ""
  documentNumber : String := ""
  nationality : String := ""
  dateOfBirth : String := ""
  sex : String := ""
  expiryDate : String := ""
deriving DecidableEq, Repr

/-- JS `line[i]` assigned to a `parsedData` field: a one-character string, with
an out-of-range index giving `undefined` (modelled as `""`, see
`MRZParsedData`). -/
def optCharField : Option Char → String
  | some c => ⟨[c]⟩
  | none => ""

/-- The result shape of `MRZValidator.validateMRZ`. -/
structure MRZRecord where
  valid : Bool
  errors : List String
  parsedData : MRZParsedData
deriving DecidableEq, Repr

/-- The field decoding of `MRZValidator.validateTD3` (lines 415–440 of the
source): fixed offsets, fillers stripped (or turned to spaces in names), the
name split on the first `<<`. -/
def td3ParsedData (line1 line2 : String) : MRZParsedData :=
  let nameParts := splitLtLt (jsSubstring line1 5 44).data
  { documentType := stripLt (jsSubstring line1 0 2)
    issuingCountry := stripLt (jsSubstring line1 2 5)
    surname := jsTrim (ltToSpace ⟨nameParts.getD 0 []⟩)
    givenNames := jsTrim (ltToSpace ⟨nameParts.getD 1 []⟩)
    documentNumber := stripLt (jsSubstring line2 0 9)
    nationality := stripLt (jsSubstring line2 10 13)
    dateOfBirth := parseMRZDate (jsSubstring line2 13 19)
    sex := optCharField (jsCharAt line2 20)
    expiryDate := parseMRZDate (jsSubstring line2 21 27) }

/-- The TS template `` `Line N length invalid: LEN, expected EXPECTED` ``. -/
def lineLengthError (idx len expected : Nat) : String :=
  s!"Line {idx} length invalid: {len}, expected {expected}"

/-- The TS template `` `FIELD check digit failed: expected COMPUTED, got GOT` ``. -/
def checkDigitError (field : String) (computed : Nat) (got : String) : String :=
  s!"{field} check digit failed: expected {computed}, got {got}"

/-- The error accumulation of `MRZValidator.validateTD3`, in push order: line
lengths, document-number, date-of-birth and expiry check digits, the optional
personal-number check digit (skipped when the field is all fillers), and the
composite check digit over `line2[0..10) ++ line2[13..20) ++ line2[21..43)`. -/
def td3Errors (line1 line2 : String) : List String :=
  let docNumCheck := jsCharAt line2 9
  let docNumCalc := calculateCheckDigit (jsSubstring line2 0 9)
  let dobStr := jsSubstring line2 13 19
  let dobCheck := jsCharAt line2 19
  let dobCalc := calculateCheckDigit dobStr
  let expStr := jsSubstring line2 21 27
  let expCheck := jsCharAt line2 27
  let expCalc := calculateCheckDigit expStr
  let personalNum := jsSubstring line2 28 42
  let personalNumCheck := jsCharAt line2 42
  let personalNumCalc := calculateCheckDigit personalNum
  let compositeStr := jsSubstring line2 0 10 ++ jsSubstring line2 13 20 ++ jsSubstring line2 21 43
  let compositeCheck := jsCharAt line2 43
  let compositeCalc := calculateCheckDigit compositeStr
  (if line1.length ≠ 44 then [lineLengthError 1 line1.length 44] else []) ++
  (if line2.length ≠ 44 then [lineLengthError 2 line2.length 44] else []) ++
  (if checkDigitFails docNumCheck docNumCalc then
    [checkDigitError ("Document number") docNumCalc (optCharStr docNumCheck)]
   else []) ++
  (if checkDigitFails dobCheck dobCalc then
    [checkDigitError ("Date of birth") dobCalc (optCharStr dobCheck)]
   else []) ++
  (if checkDigitFails expCheck expCalc then
    [checkDigitError ("Expiry date") expCalc (optCharStr expCheck)]
   else []) ++
  (if stripLt personalNum ≠ "" then
    (if checkDigitFails personalNumCheck personalNumCalc then
      [checkDigitError ("Personal number") personalNumCalc (optCharStr personalNumCheck)]
     else [])
   else []) ++
  (if checkDigitFails compositeCheck compositeCalc then
    [checkDigitError ("Composite") compositeCalc (optCharStr compositeCheck)]
   else [])

/-- Embeds `MRZValidator.validateTD3`: decode the 2×44 passport layout and accumulate
the structural and checksum errors; `valid` iff no error was recorded. -/
def validateTD3 (line1 line2 : String) : MRZRecord :=
  let errors := td3Errors line1 line2
  { valid := errors.isEmpty, errors := errors, parsedData := td3ParsedData line1 line2 }

/-- The field decoding of `MRZValidator.validateTD1` (3×30 ID-card layout). -/
def td1ParsedData (line1 line2 line3 : String) : MRZParsedData :=
  let names := splitLtLt (jsSubstring line3 0 30).data
  { documentType := stripLt (jsSubstring line1 0 2)
    issuingCountry := stripLt (jsSubstring line1 2 5)
    documentNumber := stripLt (jsSubstring line1 5 14)
    dateOfBirth := parseMRZDate (jsSubstring line2 0 6)
    sex := optCharField (jsCharAt line2 7)
    expiryDate := parseMRZDate (jsSubstring line2 8 14)
    nationality := stripLt (jsSubstring line2 15 18)
    surname := jsTrim (ltToSpace ⟨names.getD 0 []⟩)
    givenNames := jsTrim (ltToSpace ⟨names.getD 1 []⟩) }

/-- The error accumulation of `MRZValidator.validateTD1`, in push order. -/
def td1Errors (line1 line2 line3 : String) : List String :=
  (if line1.length ≠ 30 then [lineLengthError 1 line1.length 30] else []) ++
  (if line2.length ≠ 30 then [lineLengthError 2 line2.length 30] else []) ++
  (if line3.length ≠ 30 then [lineLengthError 3 line3.length 30] else []) ++
  (if checkDigitFails (jsCharAt line1 14) (calculateCheckDigit (jsSubstring line1 5 14)) then
    ["Document number check digit failed"] else []) ++
  (if checkDigitFails (jsCharAt line2 6) (calculateCheckDigit (jsSubstring line2 0 6)) then
    ["Date of birth check digit failed"] else []) ++
  (if checkDigitFails (jsCharAt line2 14) (calculateCheckDigit (jsSubstring line2 8 14)) then
    ["Expiry date check digit failed"] else [])

/-- Embeds `MRZValidator.validateTD1`. -/
def validateTD1 (line1 line2 line3 : String) : MRZRecord :=
  let errors := td1Errors line1 line2 line3
  { valid := errors.isEmpty, errors := errors, parsedData := td1ParsedData line1 line2 line3 }

/-- Embeds `MRZValidator.validateMRZ`: dispatch on the number of candidate lines —
exactly 2 ⇒ TD3, exactly 3 ⇒ TD1, anything else ⇒ a failure record with no
decoded fields. -/
def validateMRZ : List String → MRZRecord
  | [l1, l2] => validateTD3 l1 l2
  | [l1, l2, l3] => validateTD1 l1 l2 l3
  | _ => { valid := false
           errors := ["Invalid MRZ format - expected 2 or 3 lines"]
           parsedData := {} }

/-! ## Data model of the check batteries -/

/-- The TS `ExtractedField`: a string value with a 0–100 confidence score. -/
structure ExtractedField where
  value : String
  confidence : Nat
deriving DecidableEq, Repr

/-- The TS `ExtractedData`: the named set of confidence-weighted fields. -/
structure ExtractedData where
  documentType : ExtractedField
  documentNumber : ExtractedField
  surname : ExtractedField
  givenNames : ExtractedField
  nationality : ExtractedField
  dateOfBirth : ExtractedField
  sex : ExtractedField
  placeOfBirth : Option ExtractedField := none
  issuingCountry : ExtractedField
  issueDate : ExtractedField
  expiryDate : ExtractedField
  mrzLine1 : Option ExtractedField := none
  mrzLine2 : Option ExtractedField := none
  mrzLine3 : Option ExtractedField := none
deriving DecidableEq, Repr

/-- The TS `ValidationCheck` / `EligibilityCheck` (structurally identical): a named
pass/fail verdict with a message. -/
structure CheckResult where
  check : String
  passed : Bool
  message : String
deriving DecidableEq, Repr

/-- The TS `ApplicantData`: the applicant's claimed identity. -/
structure ApplicantData where
  name : String
  dateOfBirth : String
  passportNumber : String
  nationality : String
  intendedVisaType : String
deriving DecidableEq, Repr

/-- A per-visa-type entry of `EligibilityPolicy.visaTypeRequirements`; every
field is optional in the TS interface. -/
structure VisaTypeRequirement where
  minAge : Option Int := none
  allowedNationalities : Option (List String) := none
  additionalRequirements : Option (List String) := none
deriving DecidableEq, Repr

/-- The TS `EligibilityPolicy`; `visaTypeRequirements` is a JS object used as a
string-keyed map, modelled as an association list. -/
structure EligibilityPolicy where
  minAge : Int
  maxAge : Int
  allowedNationalities : List String
  blockedNationalities : List String
  requiredDocumentTypes : List String
  minValidityMonths : Int
  visaTypeRequirements : List (String × VisaTypeRequirement)
deriving DecidableEq, Repr

/-- JS property lookup `policy.visaTypeRequirements[key]` (`undefined` when the
key is absent). -/
def lookupVisaType (reqs : List (String × VisaTypeRequirement)) (key : String) :
    Option VisaTypeRequirement :=
  (reqs.find? (fun p => p.1 == key)).map (·.2)

/-- The built-in `defaultEligibilityPolicy`. -/
def defaultEligibilityPolicy : EligibilityPolicy :=
  { minAge := 18
    maxAge := 120
    allowedNationalities := []
    blockedNationalities := ["PRK"]
    requiredDocumentTypes := ["P", "I"]
    minValidityMonths := 6
    visaTypeRequirements :=
      [("tourist",
        { minAge := some 18, allowedNationalities := some [],
          additionalRequirements := some ["Valid passport", "Proof of accommodation"] }),
       ("business",
        { minAge := some 21, allowedNationalities := some [],
          additionalRequirements := some ["Valid passport", "Business invitation letter"] }),
       ("student",
        { minAge := some 16, allowedNationalities := some [],
          additionalRequirements :=
            some ["Valid passport", "Letter of acceptance from institution"] }),
       ("work",
        { minAge := some 18, allowedNationalities := some [],
          additionalRequirements := some ["Valid passport", "Job offer letter", "Work permit"] })] }

/-! ## JavaScript date semantics -/

/-- A calendar date as decoded by `new Date("YYYY-MM-DD")` (a midnight-UTC
instant); `month` and `day` are 1-based as written in the string (JS
`getMonth()` is `month - 1`, which cancels in every difference this code
takes). -/
structure JSDate where
  year : Int
  month : Nat
  day : Nat
deriving DecidableEq, Repr

/-- Leap-year rule of the proleptic Gregorian calendar used by ECMAScript. -/
def isLeapYear (y : Int) : Bool :=
  (y % 4 == 0 && y % 100 != 0) || y % 400 == 0

/-- Days in a month. -/
def daysInMonth (y : Int) (m : Nat) : Nat :=
  if m = 2 then (if isLeapYear y then 29 else 28)
  else if m = 4 ∨ m = 6 ∨ m = 9 ∨ m = 11 then 30 else 31

/-- Models ECMAScript `new Date(string)` restricted to the date-only ISO form
`YYYY-MM-DD` — the only shape this pipeline produces and validates.  A string
of any other shape, or with an out-of-range month or day, yields an Invalid
Date, modelled as `none` (its numeric fields are `NaN`, and every `<`
comparison against `NaN` is false). -/
def jsParseDate (s : String) : Option JSDate :=
  match s.data with
  | [y1, y2, y3, y4, '-', m1, m2, '-', d1, d2] =>
    if (y1.isDigit && y2.isDigit && y3.isDigit && y4.isDigit &&
        m1.isDigit && m2.isDigit && d1.isDigit && d2.isDigit) then
      let y : Int := ((y1.toNat - 48) * 1000 + (y2.toNat - 48) * 100 +
                      (y3.toNat - 48) * 10 + (y4.toNat - 48) : Nat)
      let m := (m1.toNat - 48) * 10 + (m2.toNat - 48)
      let d := (d1.toNat - 48) * 10 + (d2.toNat - 48)
      if 1 ≤ m ∧ m ≤ 12 ∧ 1 ≤ d ∧ d ≤ daysInMonth y m then some ⟨y, m, d⟩ else none
    else none
  | _ => none

/-- The `<` comparison of two parsed dates (midnight instants): lexicographic
on year, month, day. -/
def JSDate.ltB (a b : JSDate) : Bool :=
  a.year < b.year ||
    (a.year == b.year && (a.month < b.month || (a.month == b.month && a.day < b.day)))

/-! ## DocumentValidator checks named by the claims -/

/-- Embeds `DocumentValidator.checkDocumentExpiry`, with the current instant passed as
`today`.  `new Date(value)` never throws: an unparseable value gives an Invalid
Date, whose `<` comparison is false, so `isExpired` is false and the check
passes — the `catch` branch of the source (message
`'Invalid expiry date format'`) is unreachable. -/
def checkDocumentExpiry (today : JSDate) (data : ExtractedData) : CheckResult :=
  let expiryValue := data.expiryDate.value
  let isExpired :=
    match jsParseDate expiryValue with
    | some expiry => expiry.ltB today
    | none => false
  { check := "Document Expiry"
    passed := !isExpired
    message :=
      if isExpired then s!"Document expired on {expiryValue}"
      else s!"Document valid until {expiryValue}" }

/-- Embeds `DocumentValidator.checkNameMatch`: case-insensitive, trimmed equality of
`"givenNames surname"` against the claimed name. -/
def checkNameMatch (data : ExtractedData) (applicant : ApplicantData) : CheckResult :=
  let extractedFullName :=
    jsTrim (toLowerStr (data.givenNames.value ++ " " ++ data.surname.value))
  let applicantName := jsTrim (toLowerStr applicant.name)
  let nameMatches := extractedFullName == applicantName
  { check := "Name Match"
    passed := nameMatches
    message :=
      if nameMatches then "Applicant name matches document"
      else s!"Name mismatch: Document shows \"{extractedFullName}\", applicant claims \"{applicantName}\"" }

/-- JS `x || y` on numbers: `undefined`, `null`, `0` and `NaN` all fall through
to `y`. -/
def jsOrNum (x : Option Int) (y : Int) : Int :=
  match x with
  | some v => if v = 0 then y else v
  | none => y

/-- Embeds `DocumentValidator.checkAgeRequirements`, with the current date passed as
`today`.  The age is the year difference, minus one when the current
month/day precedes the birth month/day.  An unparseable date of birth makes
the whole computation `NaN` (no exception), so both comparisons are false and
the check fails; the source's `catch` branch is unreachable. -/
def checkAgeRequirements (today : JSDate) (data : ExtractedData)
    (applicant : ApplicantData) (policy : EligibilityPolicy) : CheckResult :=
  let visaTypeReq := lookupVisaType policy.visaTypeRequirements applicant.intendedVisaType
  let minAge := jsOrNum (visaTypeReq.bind (·.minAge)) policy.minAge
  let maxAge := policy.maxAge
  match jsParseDate data.dateOfBirth.value with
  | none =>
    { check := "Age Requirements"
      passed := false
      message := s!"Age NaN does not meet requirements ({minAge}-{maxAge})" }
  | some dob =>
    let baseAge : Int := today.year - dob.year
    let monthDiff : Int := (today.month : Int) - (dob.month : Int)
    let age :=
      if monthDiff < 0 || (monthDiff == 0 && (today.day : Int) < (dob.day : Int)) then
        baseAge - 1
      else baseAge
    let meetsAge := minAge ≤ age && age ≤ maxAge
    { check := "Age Requirements"
      passed := meetsAge
      message :=
        if meetsAge then s!"Age {age} meets requirements ({minAge}-{maxAge})"
        else s!"Age {age} does not meet requirements ({minAge}-{maxAge})" }

/-- Embeds `DocumentValidator.checkNationalityEligibility`: blocked nationalities fail
first; then a non-empty allow list excluding the nationality fails; otherwise
the check passes. -/
def checkNationalityEligibility (data : ExtractedData) (policy : EligibilityPolicy) :
    CheckResult :=
  let nationality := data.nationality.value
  if policy.blockedNationalities.contains nationality then
    { check := "Nationality Eligibility"
      passed := false
      message := s!"Nationality {nationality} is not eligible for visa" }
  else if policy.allowedNationalities.length > 0 &&
      !policy.allowedNationalities.contains nationality then
    { check := "Nationality Eligibility"
      passed := false
      message := s!"Nationality {nationality} is not in allowed list" }
  else
    { check := "Nationality Eligibility"
      passed := true
      message := s!"Nationality {nationality} is eligible" }

/-- Embeds `DocumentValidator.checkVisaTypeRequirements`: no configured entry for the
visa type always passes; a configured entry with an `allowedNationalities`
list — a JS array is truthy even when empty — requires membership in it. -/
def checkVisaTypeRequirements (data : ExtractedData) (applicant : ApplicantData)
    (policy : EligibilityPolicy) : CheckResult :=
  let visaType := applicant.intendedVisaType
  match lookupVisaType policy.visaTypeRequirements visaType with
  | none =>
    { check := "Visa Type Requirements"
      passed := true
      message := s!"No specific requirements for visa type: {visaType}" }
  | some visaTypeReq =>
    let nationality := data.nationality.value
    match visaTypeReq.allowedNationalities with
    | some allowed =>
      if !allowed.contains nationality then
        { check := "Visa Type Requirements"
          passed := false
          message := s!"Nationality {nationality} not eligible for {visaType} visa" }
      else
        { check := "Visa Type Requirements"
          passed := true
          message := s!"Meets all requirements for {visaType} visa" }
    | none =>
      { check := "Visa Type Requirements"
        passed := true
        message := s!"Meets all requirements for {visaType} visa" }

/-! ## Facts about the check-digit comparison -/

/-- The computed check digit is a residue modulo 10. -/
theorem calculateCheckDigit_lt (s : String) : calculateCheckDigit s < 10 :=
  Nat.mod_lt _ (by norm_num)

/-- A filler `<` checksum character is treated as "not provided": never an error. -/
theorem checkDigitFails_filler (n : Nat) : checkDigitFails (some '<') n = false := rfl

/-- A digit character always passes against its own value. -/
theorem checkDigitFails_digitChar :
    ∀ n < 10, checkDigitFails (some (Char.ofNat (48 + n))) n = false := by decide

/-- Value of `mrzDigitChar` at an in-range digit. -/
theorem mrzDigitChar_eq {n : Nat} (h : n < 10) : mrzDigitChar n = Char.ofNat (48 + n) := by
  rw [mrzDigitChar, Nat.mod_eq_of_lt h]

/-- C1: for every 9-character string over `[A-Z0-9<]`, embedding its computed
check digit as the character immediately following it in a synthetic TD3
line 2 (padded with fillers, under an all-filler line 1) is verified by
`validateMRZ` with zero checksum errors — the record comes back with an empty
error list and `valid = true`. -/
theorem checksum_roundtrip (s : String) (h9 : s.length = 9)
    (_halpha : ∀ c ∈ s.data, ('A' ≤ c ∧ c ≤ 'Z') ∨ c.isDigit ∨ c = '<') :
    (validateMRZ [⟨List.replicate 44 '<'⟩,
        ⟨s.data ++ mrzDigitChar (calculateCheckDigit s) :: List.replicate 34 '<'⟩]).errors = []
    ∧ (validateMRZ [⟨List.replicate 44 '<'⟩,
        ⟨s.data ++ mrzDigitChar (calculateCheckDigit s) :: List.replicate 34 '<'⟩]).valid
        = true := by
  have hl : s.data.length = 9 := h9
  have hd : calculateCheckDigit s < 10 := calculateCheckDigit_lt s
  set r : List Char := mrzDigitChar (calculateCheckDigit s) :: List.replicate 34 '<' with hr
  have hdrop : ∀ k : Nat, (s.data ++ r).drop (k + 9) = r.drop k := by
    intro k
    rw [Nat.add_comm, ← List.drop_drop, List.drop_left' hl]
  have hget : ∀ k : Nat, (s.data ++ r).get? (k + 9) = r.get? k := by
    intro k
    rw [List.get?_append_right (by omega), hl, Nat.add_sub_cancel]
  have hA : jsCharAt ⟨s.data ++ r⟩ 9 = some (mrzDigitChar (calculateCheckDigit s)) := by
    show (s.data ++ r).get? 9 = _
    rw [show (9 : Nat) = 0 + 9 from rfl, hget]
    rfl
  have hB : jsSubstring ⟨s.data ++ r⟩ 0 9 = s := by
    show (⟨((s.data ++ r).drop 0).take (9 - 0)⟩ : String) = s
    rw [List.drop_zero, List.take_left' hl]
  have hC : jsCharAt ⟨s.data ++ r⟩ 19 = some '<' := by
    show (s.data ++ r).get? 19 = _
    rw [show (19 : Nat) = 10 + 9 from rfl, hget]
    rfl
  have hD : jsCharAt ⟨s.data ++ r⟩ 27 = some '<' := by
    show (s.data ++ r).get? 27 = _
    rw [show (27 : Nat) = 18 + 9 from rfl, hget]
    rfl
  have hE : jsCharAt ⟨s.data ++ r⟩ 43 = some '<' := by
    show (s.data ++ r).get? 43 = _
    rw [show (43 : Nat) = 34 + 9 from rfl, hget]
    rfl
  have hG : jsSubstring ⟨s.data ++ r⟩ 28 42 = ⟨List.replicate 14 '<'⟩ := by
    show (⟨((s.data ++ r).drop 28).take (42 - 28)⟩ : String) = _
    rw [show (28 : Nat) = 19 + 9 from rfl, hdrop]
    rfl
  have hlen : (⟨s.data ++ r⟩ : String).length = 44 := by
    show (s.data ++ r).length = 44
    simp [hl, hr]
  have hP : stripLt ⟨List.replicate 14 '<'⟩ = "" := rfl
  have herr : td3Errors ⟨List.replicate 44 '<'⟩ ⟨s.data ++ r⟩ = [] := by
    simp only [td3Errors, hA, hB, hC, hD, hE, hG, hP, hlen,
      checkDigitFails_filler, mrzDigitChar_eq hd, checkDigitFails_digitChar _ hd]
    norm_num [String.length]
  refine ⟨herr, ?_⟩
  show (td3Errors _ _).isEmpty = true
  rw [herr]
  rfl

/-- Closed witness for `checksum_roundtrip` at the concrete field
`"L898902C<"` (check digit 3). -/
theorem checksum_roundtrip_witness :
    (validateMRZ [⟨List.replicate 44 '<'⟩,
        ⟨("L898902C<" : String).data ++
          mrzDigitChar (calculateCheckDigit ("L898902C<")) :: List.replicate 34 '<'⟩]).errors = []
    ∧ (validateMRZ [⟨List.replicate 44 '<'⟩,
        ⟨("L898902C<" : String).data ++
          mrzDigitChar (calculateCheckDigit ("L898902C<")) :: List.replicate 34 '<'⟩]).valid
        = true :=
  checksum_roundtrip ("L898902C<") (by decide) (by decide)

/-- C2 counterexample: on the spec's sample exactly as given, the parse is NOT
clean — line 1 has only 43 characters and the composite check digit fails
(computed 4, the sample carries 0), so `valid = false` with two errors. -/
theorem icao_sample_as_given :
    validateMRZ ["P<UTOERIKSSON<<ANNA<MARIA<<<<<<<<<<<<<<<<<<",
                 "L898902C<3UTO6908061F9406236ZE184226B<<<<<10"] =
      { valid := false
        errors := ["Line 1 length invalid: 43, expected 44",
                   "Composite check digit failed: expected 4, got 0"]
        parsedData := { documentType := "P", issuingCountry := "UTO", surname := "ERIKSSON",
                        givenNames := "ANNA MARIA", documentNumber := "L898902C",
                        nationality := "UTO", dateOfBirth := "1969-08-06", sex := "F",
                        expiryDate := "1994-06-23" } } := by rfl

/-- C2 amended: with line 1 padded to its full 44 characters and the composite
check digit corrected to its computed value 4, the sample parses cleanly:
`valid = true`, no errors, surname `ERIKSSON`, given names `ANNA MARIA`, and
the document number decoded from line-2 positions 0–9. -/
theorem icao_sample_corrected :
    validateMRZ ["P<UTOERIKSSON<<ANNA<MARIA<<<<<<<<<<<<<<<<<<<",
                 "L898902C<3UTO6908061F9406236ZE184226B<<<<<14"] =
      { valid := true
        errors := []
        parsedData := { documentType := "P", issuingCountry := "UTO", surname := "ERIKSSON",
                        givenNames := "ANNA MARIA", documentNumber := "L898902C",
                        nationality := "UTO", dateOfBirth := "1969-08-06", sex := "F",
                        expiryDate := "1994-06-23" } } := by rfl

/-- C3: `validateMRZ` dispatches purely on the candidate-line count — exactly 2
lines take the TD3 path, exactly 3 the TD1 path, and every other count returns
the fixed failure record with the single error
`"Invalid MRZ format - expected 2 or 3 lines"` and no decoded fields. -/
theorem validateMRZ_dispatch :
    (∀ l1 l2 : String, validateMRZ [l1, l2] = validateTD3 l1 l2) ∧
    (∀ l1 l2 l3 : String, validateMRZ [l1, l2, l3] = validateTD1 l1 l2 l3) ∧
    (∀ lines : List String, lines.length ≠ 2 → lines.length ≠ 3 →
      validateMRZ lines =
        { valid := false, errors := ["Invalid MRZ format - expected 2 or 3 lines"],
          parsedData := {} }) := by
  refine ⟨fun _ _ => rfl, fun _ _ _ => rfl, ?_⟩
  intro lines h2 h3
  match lines, h2, h3 with
  | [], _, _ => rfl
  | [_], _, _ => rfl
  | [_, _], h2, _ => exact absurd rfl h2
  | [_, _, _], _, h3 => exact absurd rfl h3
  | _ :: _ :: _ :: _ :: _, _, _ => rfl

/-- Closed witness for `validateMRZ_dispatch`: a single candidate line is an
immediate failure record. -/
theorem validateMRZ_dispatch_witness :
    validateMRZ ["X"] =
      { valid := false, errors := ["Invalid MRZ format - expected 2 or 3 lines"],
        parsedData := {} } :=
  validateMRZ_dispatch.2.2 ["X"] (by decide) (by decide)

/-- C4: for every 2-line and every 3-line candidate input, structural and
checksum failures are non-fatal — the returned record's `valid` flag is true
exactly when its error list is empty, the decoded (best-effort) field values
are always those of the layout's slicing, and a wrong line length or a failed
check digit contributes its named error string to the list. -/
theorem mrz_errors_nonfatal :
    (∀ l1 l2 : String,
      ((validateMRZ [l1, l2]).valid = true ↔ (validateMRZ [l1, l2]).errors = []) ∧
      (validateMRZ [l1, l2]).parsedData = td3ParsedData l1 l2 ∧
      (l1.length ≠ 44 →
        lineLengthError 1 l1.length 44 ∈ (validateMRZ [l1, l2]).errors) ∧
      (checkDigitFails (jsCharAt l2 9) (calculateCheckDigit (jsSubstring l2 0 9)) = true →
        checkDigitError ("Document number") (calculateCheckDigit (jsSubstring l2 0 9))
            (optCharStr (jsCharAt l2 9))
          ∈ (validateMRZ [l1, l2]).errors)) ∧
    (∀ l1 l2 l3 : String,
      ((validateMRZ [l1, l2, l3]).valid = true ↔ (validateMRZ [l1, l2, l3]).errors = []) ∧
      (validateMRZ [l1, l2, l3]).parsedData = td1ParsedData l1 l2 l3 ∧
      (l1.length ≠ 30 →
        lineLengthError 1 l1.length 30 ∈ (validateMRZ [l1, l2, l3]).errors) ∧
      (checkDigitFails (jsCharAt l2 6) (calculateCheckDigit (jsSubstring l2 0 6)) = true →
        "Date of birth check digit failed" ∈ (validateMRZ [l1, l2, l3]).errors)) := by
  constructor
  · intro l1 l2
    refine ⟨?_, rfl, ?_, ?_⟩
    · show (td3Errors l1 l2).isEmpty = true ↔ td3Errors l1 l2 = []
      simp [List.isEmpty_iff]
    · intro h
      show _ ∈ td3Errors l1 l2
      simp [td3Errors, h]
    · intro h
      show _ ∈ td3Errors l1 l2
      simp [td3Errors, h]
  · intro l1 l2 l3
    refine ⟨?_, rfl, ?_, ?_⟩
    · show (td1Errors l1 l2 l3).isEmpty = true ↔ td1Errors l1 l2 l3 = []
      simp [List.isEmpty_iff]
    · intro h
      show _ ∈ td1Errors l1 l2 l3
      simp [td1Errors, h]
    · intro h
      show _ ∈ td1Errors l1 l2 l3
      simp [td1Errors, h]

/-- Closed witness for `mrz_errors_nonfatal`: empty lines carry a length error
(TD3) and a date-of-birth check-digit error (TD1). -/
theorem mrz_errors_nonfatal_witness :
    (lineLengthError 1 ("" : String).length 44 ∈ (validateMRZ [(""), ("")]).errors) ∧
    (("Date of birth check digit failed") ∈ (validateMRZ [(""), (""), ("")]).errors) :=
  ⟨(mrz_errors_nonfatal.1 ("") ("")).2.2.1 (by decide),
   (mrz_errors_nonfatal.2 ("") ("") ("")).2.2.2 (by decide)⟩

/-! ## OCRProcessor heuristics -/

/-- JS `hay.includes(sub)` on character lists. -/
def containsSub (sub : List Char) : List Char → Bool
  | [] => sub.isEmpty
  | c :: t => sub.isPrefixOf (c :: t) || containsSub sub t

/-- JS `hay.includes(sub)` on strings. -/
def strIncludes (hay sub : String) : Bool :=
  containsSub sub.data hay.data

/-- A JS regex `\w` word character: `[A-Za-z0-9_]`. -/
def isWordChar (c : Char) : Bool :=
  c.isAlpha || c.isDigit || c == '_'

/-- An ASCII uppercase letter, the `[A-Z]` class. -/
def isUpperAZ (c : Char) : Bool :=
  'A' ≤ c && c ≤ 'Z'

/-- The first `some` produced by `f` along the list — the backtracking order of
a greedy bounded regex quantifier when the list holds the lengths to try,
largest first. -/
def firstSome {α β : Type} (f : α → Option β) : List α → Option β
  | [] => none
  | x :: t =>
    match f x with
    | some r => some r
    | none => firstSome f t

/-- Leftmost-match regex search: try the anchored matcher `f` at every start
position, left to right. -/
def scanFirst {β : Type} (f : List Char → Option β) : List Char → Option β
  | [] => f []
  | c :: rest =>
    match f (c :: rest) with
    | some r => some r
    | none => scanFirst f rest

/-- Anchored match of `[A-Z]{1,2}\d{7,9}` (the document-number pattern of
`OCRProcessor.extractPattern`): greedy letters (2 then 1), then greedy digits
(9, 8, 7), returning the whole match. -/
def docNumAt (cs : List Char) : Option String :=
  firstSome (fun a =>
    let letters := cs.take a
    if letters.length = a && letters.all isUpperAZ then
      firstSome (fun b =>
        let digits := (cs.drop a).take b
        if digits.length = b && digits.all Char.isDigit then some ⟨cs.take (a + b)⟩
        else none) [9, 8, 7]
    else none) [2, 1]

/-- Embeds `OCRProcessor.extractPattern` at the regex `[A-Z]{1,2}\d{7,9}` (no capture
group, so the whole match is returned; no match gives `""`). -/
def extractDocNumber (text : String) : String :=
  (scanFirst docNumAt text.data).getD ("")

/-- Leftmost match of `\b([A-Z]{3})\b` (the nationality / issuing-country
pattern): three uppercase letters with no word character on either side;
`prev` is the character before the current position. -/
def tlaScan : Option Char → List Char → Option String
  | prev, a :: b :: c :: rest =>
    if prev.all (fun p => !isWordChar p) && isUpperAZ a && isUpperAZ b && isUpperAZ c &&
        (match rest with
         | [] => true
         | d :: _ => !isWordChar d) then
      some ⟨[a, b, c]⟩
    else tlaScan (some a) (b :: c :: rest)
  | _, _ => none

/-- Embeds `OCRProcessor.extractPattern` at the regex `\b([A-Z]{3})\b` (capture group
1 is the whole letter run). -/
def extractTLA (text : String) : String :=
  (tlaScan none text.data).getD ("")

/-- JS `/\bX\b/.test(s)` for a single word character `X`: some occurrence with
no word character on either side. -/
def hasLone (target : Char) : Option Char → List Char → Bool
  | _, [] => false
  | prev, c :: rest =>
    (c == target && prev.all (fun p => !isWordChar p) &&
      (match rest with
       | [] => true
       | d :: _ => !isWordChar d)) ||
    hasLone target (some c) rest

/-- Embeds `OCRProcessor.extractSex`: isolated `M`/`F` tokens first, then the words
`MALE`/`FEMALE` (note `"MALE"` is a substring of `"FEMALE"`), default `M`. -/
def extractSex (text : String) : String :=
  let upper := toUpperStr text
  let mAlone := hasLone 'M' none upper.data
  let fAlone := hasLone 'F' none upper.data
  if mAlone && !fAlone then "M"
  else if fAlone && !mAlone then "F"
  else if strIncludes upper ("MALE") && !strIncludes upper ("FEMALE") then "M"
  else if strIncludes upper ("FEMALE") then "F"
  else "M"

/-- Embeds `OCRProcessor.extractDocumentType`: keyword scan, defaulting to `P`. -/
def extractDocumentType (text : String) : String :=
  let upper := toUpperStr text
  if strIncludes upper ("PASSPORT") then "P"
  else if strIncludes upper ("VISA") then "V"
  else if strIncludes upper ("IDENTITY") || strIncludes upper ("ID CARD") then "I"
  else if strIncludes upper ("DRIVING") || strIncludes upper ("LICENSE") ||
      strIncludes upper ("LICENCE") then "D"
  else "P"

/-- The separator class `[\/\-\.]` of the day/month/year date pattern. -/
def sepChar (c : Char) : Bool :=
  c == '/' || c == '-' || c == '.'

/-- Anchored match of `(\d{1,2})[\/\-\.](\d{1,2})[\/\-\.](\d{2,4})`, returning
the three digit groups (greedy: 2-then-1, 2-then-1, 4-then-3-then-2). -/
def dmyAt (cs : List Char) : Option (String × String × String) :=
  firstSome (fun a =>
    let g1 := cs.take a
    if g1.length = a && g1.all Char.isDigit then
      match cs.drop a with
      | s1 :: rest1 =>
        if sepChar s1 then
          firstSome (fun b =>
            let g2 := rest1.take b
            if g2.length = b && g2.all Char.isDigit then
              match rest1.drop b with
              | s2 :: rest2 =>
                if sepChar s2 then
                  firstSome (fun cl =>
                    let g3 := rest2.take cl
                    if g3.length = cl && g3.all Char.isDigit then some (⟨g1⟩, ⟨g2⟩, ⟨g3⟩)
                    else none) [4, 3, 2]
                else none
              | [] => none
            else none) [2, 1]
        else none
      | [] => none
    else none) [2, 1]

/-- Anchored match of `(\d{4})-(\d{2})-(\d{2})`, returning the whole match
(`match[0]` / an element of the `/g` match list). -/
def isoAt : List Char → Option String
  | a :: b :: c :: d :: s1 :: e :: f :: s2 :: g :: h :: _ =>
    if [a, b, c, d].all Char.isDigit && s1 == '-' && [e, f].all Char.isDigit &&
        s2 == '-' && [g, h].all Char.isDigit then
      some ⟨[a, b, c, d, '-', e, f, '-', g, h]⟩
    else none
  | _ => none

/-- Zero-pad a one-digit day/month group. -/
def padTwo (s : String) : String :=
  if s.length = 1 then "0" ++ s else s

/-- The date normalization of `OCRProcessor.extractDate` for a `D/M/Y`-style
match: a 2-character year is prefixed with `19` when its value exceeds 50,
else `20`; day and month are zero-padded; output `year-month-day`. -/
def formatDMY (day month year : String) : String :=
  let y :=
    if year.length = 2 then
      if (jsParseIntLead year).getD 0 > 50 then "19" ++ year else "20" ++ year
    else year
  y ++ "-" ++ padTwo month ++ "-" ++ padTwo day

/-- The keyword-line loop of `OCRProcessor.extractDate`: on each line whose
lowercase form holds one of the keywords, try the `D/M/Y` pattern, then the
ISO pattern; a keyword line with neither pattern falls through to the next
line. -/
def findDateInLines (keywords : List String) : List String → Option String
  | [] => none
  | line :: rest =>
    let lower := toLowerStr line
    if keywords.any (fun kw => strIncludes lower kw) then
      match scanFirst dmyAt line.data with
      | some (d, m, y) => some (formatDMY d m y)
      | none =>
        match scanFirst isoAt line.data with
        | some s => some s
        | none => findDateInLines keywords rest
    else findDateInLines keywords rest

/-- Embeds `OCRProcessor.extractDate`: keyword-line scan, then the first ISO date
anywhere in the text, then the current date (`todayISO` models
`new Date().toISOString().split('T')[0]`). -/
def extractDate (text : String) (keywords : List String) (todayISO : String) : String :=
  match findDateInLines keywords (splitLines text) with
  | some d => d
  | none =>
    match scanFirst isoAt text.data with
    | some d => d
    | none => todayISO

/-- The shared line-scan of `OCRProcessor.extractSurname` and
`extractGivenNames` (identical in the source up to the label list): on the
first line containing a label, the text after the first colon, trimmed and
upper-cased; a label line without a colon falls through to the next line. -/
def labeledValue (labels : List String) : List String → String
  | [] => ""
  | line :: rest =>
    let lower := toLowerStr line
    if labels.any (fun l => strIncludes lower l) then
      match splitChar ':' line.data with
      | _ :: v :: _ => toUpperStr (jsTrim ⟨v⟩)
      | _ => labeledValue labels rest
    else labeledValue labels rest

/-- Embeds `OCRProcessor.extractSurname`. -/
def extractSurname (text : String) : String :=
  labeledValue ["surname", "last name", "family name"] (splitLines text)

/-- Embeds `OCRProcessor.extractGivenNames`. -/
def extractGivenNames (text : String) : String :=
  labeledValue ["given name", "first name"] (splitLines text)

/-- Embeds `OCRProcessor.extractFields`.  Each value prefers the MRZ-decoded field
when present and non-empty (`parsedMRZ?.x || heuristic`), otherwise its
heuristic; `issueDate` always comes from the heuristic because the validator
never sets `parsedData.issueDate`.  Each confidence is `mrzConfidence` when a
parsed MRZ record exists (valid or not) and the per-field heuristic score when
none does — except `issueDate`, fixed at 70.  `todayISO` stands for the
current date used by `extractDate`'s last fallback. -/
def extractFields (text : String) (parsedMRZ : Option MRZParsedData) (mrzConfidence : Nat)
    (todayISO : String) : ExtractedData :=
  let mrzStr (f : MRZParsedData → String) : String :=
    match parsedMRZ with
    | some p => f p
    | none => ""
  let pick (mrzVal fallback : String) : String :=
    if mrzVal ≠ "" then mrzVal else fallback
  let conf (heuristic : Nat) : Nat :=
    match parsedMRZ with
    | some _ => mrzConfidence
    | none => heuristic
  { documentType := ⟨pick (mrzStr (fun p => p.documentType)) (extractDocumentType text), conf 80⟩
    documentNumber := ⟨pick (mrzStr (fun p => p.documentNumber)) (extractDocNumber text), conf 75⟩
    surname := ⟨pick (mrzStr (fun p => p.surname)) (extractSurname text), conf 75⟩
    givenNames := ⟨pick (mrzStr (fun p => p.givenNames)) (extractGivenNames text), conf 75⟩
    nationality := ⟨pick (mrzStr (fun p => p.nationality)) (extractTLA text), conf 80⟩
    dateOfBirth := ⟨pick (mrzStr (fun p => p.dateOfBirth))
      (extractDate text ["birth", "born", "dob"] todayISO), conf 70⟩
    sex := ⟨pick (mrzStr (fun p => p.sex)) (extractSex text), conf 85⟩
    issuingCountry := ⟨pick (mrzStr (fun p => p.issuingCountry)) (extractTLA text), conf 80⟩
    issueDate := ⟨extractDate text ["issue", "issued", "date of issue"] todayISO, 70⟩
    expiryDate := ⟨pick (mrzStr (fun p => p.expiryDate))
      (extractDate text ["expiry", "expires", "valid until", "exp"] todayISO), conf 70⟩ }

/-- The record-level MRZ confidence assigned by `OCRProcessor.processDocument`:
95 for a checksum-verified record, 60 for a present-but-invalid one. -/
def mrzConfidenceOf (record : MRZRecord) : Nat :=
  if record.valid then 95 else 60

/-! ## Concrete inputs for the check theorems -/

/-- A baseline extracted document (values of the corrected ICAO sample with an
anglophone name) used as concrete input by witnesses and counterexamples. -/
def sampleDoc : ExtractedData :=
  { documentType := ⟨"P", 95⟩
    documentNumber := ⟨"L898902C", 95⟩
    surname := ⟨"SMITH", 95⟩
    givenNames := ⟨"JOHN", 95⟩
    nationality := ⟨"UTO", 95⟩
    dateOfBirth := ⟨"1969-08-06", 95⟩
    sex := ⟨"M", 95⟩
    issuingCountry := ⟨"UTO", 95⟩
    issueDate := ⟨"2020-01-01", 70⟩
    expiryDate := ⟨"2030-01-01", 95⟩ }

/-- A baseline applicant matching `sampleDoc`. -/
def sampleApplicant : ApplicantData :=
  { name := "John Smith"
    dateOfBirth := "1969-08-06"
    passportNumber := "L898902C"
    nationality := "UTO"
    intendedVisaType := "tourist" }

/-- A policy whose "special" visa type carries a present `minAge` of 0. -/
def zeroMinAgePolicy : EligibilityPolicy :=
  { defaultEligibilityPolicy with
      visaTypeRequirements := [("special", { minAge := some 0 })] }

/-! ## Claims about the checks -/

/-- C5: the code contradicts the claim — an expiry value that fails to parse is
NOT a hard fail.  `new Date` never throws; the Invalid-Date comparison is
false, so the check PASSES and even reports the garbage value as "valid
until"; the source's `'Invalid expiry date format'` branch is unreachable. -/
theorem checkDocumentExpiry_invalid_format_passes :
    jsParseDate ("NOT-A-DATE") = none ∧
    (checkDocumentExpiry ⟨2026, 10, 11⟩
        { sampleDoc with expiryDate := ⟨"NOT-A-DATE", 70⟩ }).passed = true ∧
    (checkDocumentExpiry ⟨2026, 10, 11⟩
        { sampleDoc with expiryDate := ⟨"NOT-A-DATE", 70⟩ }).message =
      "Document valid until NOT-A-DATE" :=
  ⟨rfl, rfl, rfl⟩

/-- C7: the Nationality Eligibility check passes exactly when the nationality
is not blocked and the allow list is empty or contains it (so a blocked
nationality fails with precedence); in particular `"PRK"` fails under the
built-in default policy whatever the other fields are. -/
theorem nationality_eligibility_spec :
    (∀ (data : ExtractedData) (policy : EligibilityPolicy),
      (checkNationalityEligibility data policy).passed = true ↔
        (data.nationality.value ∉ policy.blockedNationalities ∧
          (policy.allowedNationalities = [] ∨
            data.nationality.value ∈ policy.allowedNationalities))) ∧
    (∀ data : ExtractedData, data.nationality.value = "PRK" →
      (checkNationalityEligibility data defaultEligibilityPolicy).passed = false) := by
  constructor
  · intro data policy
    by_cases hb : data.nationality.value ∈ policy.blockedNationalities
    · have hb' : policy.blockedNationalities.contains data.nationality.value = true :=
        List.elem_iff.mpr hb
      simp [checkNationalityEligibility, hb', hb]
    · have hb' : policy.blockedNationalities.contains data.nationality.value = false := by
        rw [Bool.eq_false_iff]
        exact fun h => hb (List.elem_iff.mp h)
      by_cases ha0 : policy.allowedNationalities = []
      · simp [checkNationalityEligibility, hb', hb, ha0]
      · by_cases ha : data.nationality.value ∈ policy.allowedNationalities
        · have ha' : policy.allowedNationalities.contains data.nationality.value = true :=
            List.elem_iff.mpr ha
          simp [checkNationalityEligibility, hb', hb, ha', ha]
        · have ha' : policy.allowedNationalities.contains data.nationality.value = false := by
            rw [Bool.eq_false_iff]
            exact fun h => ha (List.elem_iff.mp h)
          have hlen : 0 < policy.allowedNationalities.length := List.length_pos.mpr ha0
          simp [checkNationalityEligibility, hb', hb, ha', ha, ha0, hlen]
  · intro data h
    simp [checkNationalityEligibility, defaultEligibilityPolicy, h]

/-- Closed witness for `nationality_eligibility_spec`: a PRK document fails
eligibility under the default policy. -/
theorem nationality_eligibility_witness :
    (checkNationalityEligibility { sampleDoc with nationality := ⟨"PRK", 95⟩ }
      defaultEligibilityPolicy).passed = false :=
  nationality_eligibility_spec.2 { sampleDoc with nationality := ⟨"PRK", 95⟩ } rfl

/-- C8 counterexample: extracted `"JOHN SMITH"` against applicant claim
`"Jon Smith"` does NOT pass — the two differ by a letter, not by case or
whitespace (`"john smith" ≠ "jon smith"` after normalization). -/
theorem checkNameMatch_jon_fails :
    (checkNameMatch sampleDoc { sampleApplicant with name := "Jon Smith" }).passed = false :=
  rfl

/-- C8 amended: the Name Match check passes exactly when the lowercased,
trimmed `"givenNames surname"` equals the lowercased, trimmed claimed name
(exact equality, not fuzzy); claim `"John Smith"` passes against extracted
`"JOHN SMITH"`, and claim `"Jane Smith"` fails with both normalized names
quoted in the message. -/
theorem checkNameMatch_spec :
    (∀ (data : ExtractedData) (applicant : ApplicantData),
      (checkNameMatch data applicant).passed = true ↔
        jsTrim (toLowerStr (data.givenNames.value ++ " " ++ data.surname.value)) =
          jsTrim (toLowerStr applicant.name)) ∧
    (checkNameMatch sampleDoc sampleApplicant).passed = true ∧
    (checkNameMatch sampleDoc { sampleApplicant with name := "Jane Smith" }).passed = false ∧
    (checkNameMatch sampleDoc { sampleApplicant with name := "Jane Smith" }).message =
      "Name mismatch: Document shows \"john smith\", applicant claims \"jane smith\"" := by
  refine ⟨fun data applicant => ?_, rfl, rfl, rfl⟩
  simp [checkNameMatch]

/-- Calendar-aware age at `today` for a person born on `dob`: the year
difference, minus one when today's (month, day) precedes the birthday's. -/
def ageOn (today dob : JSDate) : Int :=
  today.year - dob.year -
    (if today.month < dob.month ∨ (today.month = dob.month ∧ today.day < dob.day) then 1
     else 0)

/-- C9 amended: when the date of birth parses, the Age Requirements check
passes iff the calendar-aware age is at least the effective minimum — the visa
type's configured `minAge` when present AND non-zero (the JS `||` sends a
present 0 to the fallback), else the policy minimum — and at most
`policy.maxAge`. -/
theorem checkAgeRequirements_spec (today : JSDate) (data : ExtractedData)
    (applicant : ApplicantData) (policy : EligibilityPolicy) (dob : JSDate)
    (hdob : jsParseDate data.dateOfBirth.value = some dob) :
    (checkAgeRequirements today data applicant policy).passed = true ↔
      (jsOrNum ((lookupVisaType policy.visaTypeRequirements
            applicant.intendedVisaType).bind (fun r => r.minAge)) policy.minAge
          ≤ ageOn today dob ∧
        ageOn today dob ≤ policy.maxAge) := by
  simp only [checkAgeRequirements, hdob, ageOn]
  split_ifs with h1 h2 h2 <;>
    simp only [Bool.or_eq_true, Bool.and_eq_true, decide_eq_true_eq, beq_iff_eq,
      not_or, not_and, not_lt] at h1 h2 ⊢ <;>
    omega

/-- Closed witness for `checkAgeRequirements_spec`: the baseline applicant,
born 1969-08-06, is between 18 and 120 on 2026-10-11. -/
theorem checkAgeRequirements_spec_witness :
    ((checkAgeRequirements ⟨2026, 10, 11⟩ sampleDoc sampleApplicant
        defaultEligibilityPolicy).passed = true ↔
      (jsOrNum ((lookupVisaType defaultEligibilityPolicy.visaTypeRequirements
            sampleApplicant.intendedVisaType).bind (fun r => r.minAge))
          defaultEligibilityPolicy.minAge ≤ ageOn ⟨2026, 10, 11⟩ ⟨1969, 8, 6⟩ ∧
        ageOn ⟨2026, 10, 11⟩ ⟨1969, 8, 6⟩ ≤ defaultEligibilityPolicy.maxAge)) :=
  checkAgeRequirements_spec ⟨2026, 10, 11⟩ sampleDoc sampleApplicant
    defaultEligibilityPolicy ⟨1969, 8, 6⟩ (by decide)

/-- C9 counterexample: the "special" visa type entry exists and carries a
present `minAge` of 0; the applicant's calendar-aware age is 10, within
[0, 120], so the claim says the check passes — but the code falls back to
`policy.minAge = 18` (JS `||` on the falsy 0) and fails. -/
theorem checkAgeRequirements_minAge_zero_cex :
    lookupVisaType zeroMinAgePolicy.visaTypeRequirements ("special") =
      some { minAge := some 0 } ∧
    jsParseDate ("2016-01-01") = some ⟨2016, 1, 1⟩ ∧
    ageOn ⟨2026, 10, 11⟩ ⟨2016, 1, 1⟩ = 10 ∧
    (checkAgeRequirements ⟨2026, 10, 11⟩
        { sampleDoc with dateOfBirth := ⟨"2016-01-01", 95⟩ }
        { sampleApplicant with intendedVisaType := "special" } zeroMinAgePolicy).passed
      = false ∧
    (checkAgeRequirements ⟨2026, 10, 11⟩
        { sampleDoc with dateOfBirth := ⟨"2016-01-01", 95⟩ }
        { sampleApplicant with intendedVisaType := "special" } zeroMinAgePolicy).message
      = "Age 10 does not meet requirements (18-120)" := by
  refine ⟨rfl, rfl, by decide, ?_, ?_⟩ <;> rfl

/-- The MRZ record of the C6 counterexample: a decoded TD3 record whose
`surname` is empty (exactly what a valid TD3 with a name field starting `<<`
produces), every other field present. -/
def cexParsedMRZ : MRZParsedData :=
  { documentType := "P"
    issuingCountry := "UTO"
    surname := ""
    givenNames := "ANNA"
    documentNumber := "L898902C"
    nationality := "UTO"
    dateOfBirth := "1969-08-06"
    sex := "F"
    expiryDate := "1994-06-23" }

/-- C6 counterexample: with an MRZ record present, a field the MRZ did NOT
supply (the record's surname is empty, so the value `"SMITH"` comes from the
label heuristic) still receives the record-level MRZ confidence 95 — not its
heuristic-only score 75. -/
theorem extractFields_heuristic_field_gets_mrz_confidence :
    cexParsedMRZ.surname = "" ∧
    extractSurname ("Surname: SMITH") = "SMITH" ∧
    (extractFields ("Surname: SMITH") (some cexParsedMRZ) 95 ("2026-10-11")).surname =
      { value := "SMITH", confidence := 95 } :=
  ⟨rfl, rfl, rfl⟩

/-- C6 amended: `extractFields` assigns confidence by record-level provenance
only — when a parsed MRZ record is present (`processDocument` passes 95 for a
checksum-verified record and 60 for an invalid one) every field receives that
record confidence, even when its value was filled by a heuristic, except
`issueDate`, which is always 70; the per-field heuristic scores (documentType
80, documentNumber 75, surname 75, givenNames 75, nationality 80, dateOfBirth
70, sex 85, issuingCountry 80, expiryDate 70) apply only when no MRZ record
exists at all. -/
theorem extractFields_confidence :
    (∀ (text : String) (p : MRZParsedData) (record : MRZRecord) (today : String),
      record.parsedData = p →
      ((extractFields text (some p) (mrzConfidenceOf record) today).documentType.confidence
          = mrzConfidenceOf record ∧
        (extractFields text (some p) (mrzConfidenceOf record) today).documentNumber.confidence
          = mrzConfidenceOf record ∧
        (extractFields text (some p) (mrzConfidenceOf record) today).surname.confidence
          = mrzConfidenceOf record ∧
        (extractFields text (some p) (mrzConfidenceOf record) today).givenNames.confidence
          = mrzConfidenceOf record ∧
        (extractFields text (some p) (mrzConfidenceOf record) today).nationality.confidence
          = mrzConfidenceOf record ∧
        (extractFields text (some p) (mrzConfidenceOf record) today).dateOfBirth.confidence
          = mrzConfidenceOf record ∧
        (extractFields text (some p) (mrzConfidenceOf record) today).sex.confidence
          = mrzConfidenceOf record ∧
        (extractFields text (some p) (mrzConfidenceOf record) today).issuingCountry.confidence
          = mrzConfidenceOf record ∧
        (extractFields text (some p) (mrzConfidenceOf record) today).issueDate.confidence = 70 ∧
        (extractFields text (some p) (mrzConfidenceOf record) today).expiryDate.confidence
          = mrzConfidenceOf record)) ∧
    (∀ (text : String) (c : Nat) (today : String),
      (extractFields text none c today).documentType.confidence = 80 ∧
      (extractFields text none c today).documentNumber.confidence = 75 ∧
      (extractFields text none c today).surname.confidence = 75 ∧
      (extractFields text none c today).givenNames.confidence = 75 ∧
      (extractFields text none c today).nationality.confidence = 80 ∧
      (extractFields text none c today).dateOfBirth.confidence = 70 ∧
      (extractFields text none c today).sex.confidence = 85 ∧
      (extractFields text none c today).issuingCountry.confidence = 80 ∧
      (extractFields text none c today).issueDate.confidence = 70 ∧
      (extractFields text none c today).expiryDate.confidence = 70) :=
  ⟨fun _ _ _ _ _ => ⟨rfl, rfl, rfl, rfl, rfl, rfl, rfl, rfl, rfl, rfl⟩,
   fun _ _ _ => ⟨rfl, rfl, rfl, rfl, rfl, rfl, rfl, rfl, rfl, rfl⟩⟩

/-- Closed witness for `extractFields_confidence`, at the corrected ICAO
sample's parse (a verified record, confidence 95). -/
theorem extractFields_confidence_witness :
    (extractFields ("") (some cexParsedMRZ)
        (mrzConfidenceOf { valid := true, errors := [], parsedData := cexParsedMRZ }) ("2026-10-11")).surname.confidence
      = mrzConfidenceOf { valid := true, errors := [], parsedData := cexParsedMRZ } :=
  ((extractFields_confidence.1 ("") cexParsedMRZ
      { valid := true, errors := [], parsedData := cexParsedMRZ } ("2026-10-11")) rfl).2.2.1

/-- C10: under the built-in default policy, the Visa Type Requirements check
fails for EVERY extracted document (any nationality) whenever the intended
visa type is tourist, business, student or work: each entry configures
`allowedNationalities = []`, and a present list — truthy in JS even when
empty — demands membership, so the empty per-visa-type list is a universal
rejection rather than "no restriction". -/
theorem visaType_empty_allowed_fails (data : ExtractedData) (applicant : ApplicantData)
    (h : applicant.intendedVisaType = "tourist" ∨ applicant.intendedVisaType = "business" ∨
      applicant.intendedVisaType = "student" ∨ applicant.intendedVisaType = "work") :
    (checkVisaTypeRequirements data applicant defaultEligibilityPolicy).passed = false := by
  rcases h with h | h | h | h <;>
    simp [checkVisaTypeRequirements, defaultEligibilityPolicy, lookupVisaType, h]

/-- Closed witness for `visaType_empty_allowed_fails`: the baseline applicant
(tourist visa) fails against the default policy. -/
theorem visaType_empty_allowed_fails_witness :
    (checkVisaTypeRequirements sampleDoc sampleApplicant defaultEligibilityPolicy).passed
      = false :=
  visaType_empty_allowed_fails sampleDoc sampleApplicant (Or.inl rfl)

end DocVerify
